import Mathlib

/-!
Verification development for the BlockOasis escrow-backed claims arbitration
engine. The Python sources are shallowly embedded: every stateful route
handler becomes a pure function from an explicit engine state to a result
paired with the successor state, and every fallible step is reflected in the
result type. Python exceptions that the route code does not catch are
modelled as crash results carrying the state at the moment of the raise,
because the in-memory databases retain all mutations performed before the
exception (the spec itself declares the in-memory state authoritative).

Embedding conventions, stated once here and referenced by the definitions:

- Machine integers are modelled as Int (Python int is unbounded, balances
  and counters are plain ints in the source).
- Python dict keys for the per-user open-claim and open-dispute tables are
  heterogeneous in the source: the user-table writes of the validate route
  address the integer payload.claimID, while the claim-creation route
  inserts the string str(new_claim_id). The type PyKey with constructors
  pyInt and pyStr reproduces the Python semantics in which the int key 1
  and the string key "1" are distinct dict keys.
- Three attribute reads in the source name fields that the pydantic models
  do not declare, so they raise AttributeError when executed, and the
  embedding models each as an attributeErrorCrash result at exactly that
  program point: claim.prep_CID in generate_dispute_route (Claim declares
  prepCID, no prep_CID), reached for every existing claim, so the dispute
  route aborts before its prepCID comparison, eligibility check, stake
  transfer and dispute initiation; claim.last_edited in finalize_claim_route
  (Claim declares lastUpdated, no last_edited), reached for every OPEN or
  DISPUTING claim, so the finalize route aborts before the epoch gate and
  any mutation; and payload.comp_proof in generate_claim_route (ClaimInput
  declares computation_proof, no comp_proof), raised while the arguments of
  create_and_register_claim are evaluated, so claim creation aborts after
  the collateral has been locked and before any registry or user-table
  write. The later statements of those handlers are unreachable dead code
  and are not part of the embedding. data.metadata.sender in
  validate_claim_route is a read on the external transport object, outside
  src, and is modelled as the trigger sender address.
- claims_db stamps lastUpdated with int(time.time()), a locally read wall
  clock. The wall clock is an oracle: the one registry write reachable from
  the routes, validate_or_contradict_claim, takes an explicit wc argument
  holding the value time.time() would have returned at that moment.
- The pandas/SHA-256 proof recomputation of validate_claim_route
  (calculate_endpoint_usage) sums IEEE-754 doubles and hashes their decimal
  rendering; its Boolean outcome is passed to the embedded handler as the
  isValid argument (see claim C5).
-/

/-- A Python dict key that is either an int or a str. The int 1 and the
string "1" are distinct keys, exactly as in Python. -/
inductive PyKey where
  | pyInt (n : Nat)
  | pyStr (s : String)
deriving DecidableEq, Repr

/-- Claim status enumeration from model.py. -/
inductive Status where
  | UNDEFINED
  | OPEN
  | DISPUTING
  | FINALIZED
  | DISPUTED
  | VALIDATED
  | CONTRADICTED
deriving DecidableEq, Repr

/-- User record from model.py. The open_claims and open_disputes dicts carry
only keys (all values are None in the source), so they are modelled as key
lists in insertion order. -/
structure User where
  open_claims : List PyKey
  open_disputes : List PyKey
  total_disputes : Int
  won_disputes : Int
  total_claims : Int
  correct_claims : Int
deriving DecidableEq, Repr

/-- Claim record from model.py. timestamp_of_claim is a str field in the
source (pydantic coerces the integer trigger timestamp to its decimal
string). -/
structure Claim where
  user_address : String
  disputing_user_address : Option String
  timestamp_of_claim : String
  status : Status
  collateral : Int
  compProof : String
  compCID : String
  prepCID : String
  lastUpdated : Int
deriving DecidableEq, Repr

/-! ## Settings (setting.py) -/

/-- Address of the escrow pool account (setting.py LOCKED_ASSET_ADDRESS). -/
def LOCKED_ASSET_ADDRESS : String := "0x0000000000000000000000000000000000000001"

/-- Required collateral for opening a claim (setting.py). -/
def COLLATERAL_AMOUNT : Int := 1000000000000000000

/-- Seconds a claim must age before timeout finalization (setting.py). -/
def CLAIM_EPOCH : Int := 30

/-- Seconds a dispute must age before timeout finalization (setting.py). -/
def DISPUTE_EPOCH : Int := 60

/-- Required dispute stake (setting.py, 4 * 10^18). -/
def VALIDATOR_STAKING : Int := 4 * 1000000000000000000

/-- Claim incentive. The source computes int(0.0005 * 1000000000000000000)
in double precision; the double product rounds to exactly 5 * 10^14, which
int truncates to this literal. -/
def CLAIM_INCENTIVE : Int := 500000000000000

/-! ## Ledger (bank_db.py)

The wallet table is a total map from lowercased addresses to balances, with
absent wallets read as 0 (BankDatabase lazily creates wallets at balance 0).
Each operation returns (error?, resulting bank); a some error corresponds to
a raised exception, and the returned bank is the in-memory state at the
moment of the raise. -/

/-- The wallet table. -/
def Bank : Type := String → Int

/-- Python str.lower as used by _get_wallet for address normalization,
written as a character-list map so that it evaluates inside the kernel. -/
def pyLower (s : String) : String := String.mk (s.data.map Char.toLower)

/-- Point update of the wallet table at an already-lowercased key. -/
def bankSet (b : Bank) (k : String) (v : Int) : Bank :=
  fun x => if x = k then v else b x

/-- BankDatabase.balance: reads the wallet of the lowercased address,
creating it at 0 if absent (reading an absent key of the total map). -/
def balance (b : Bank) (address : String) : Int :=
  b (pyLower address)

/-- BankDatabase.deposit. Raises on amount <= 0, else credits. -/
def deposit (b : Bank) (address : String) (amount : Int) :
    Option String × Bank :=
  if amount ≤ 0 then (some "invalid amount", b)
  else (none, bankSet b (pyLower address) (balance b address + amount))

/-- BankDatabase.withdraw. Raises on amount <= 0 or insufficient balance,
else debits. -/
def withdraw (b : Bank) (address : String) (amount : Int) :
    Option String × Bank :=
  if amount ≤ 0 then (some "invalid amount", b)
  else if balance b address < amount then (some "insufficient funds", b)
  else (none, bankSet b (pyLower address) (balance b address - amount))

/-- BankDatabase.transfer: amount guard, then withdraw, then deposit. A
failure of the inner deposit would leave the withdraw applied (the source
has no rollback), which the returned bank reflects. -/
def transfer (b : Bank) (sender receiver : String) (amount : Int) :
    Option String × Bank :=
  if amount ≤ 0 then (some "invalid amount", b)
  else
    match withdraw b sender amount with
    | (some e, b1) => (some e, b1)
    | (none, b1) => deposit b1 receiver amount

/-- BankDatabase.transfer where the receiver argument is the possibly-absent
disputing_user_address. Passing None reproduces the Python evaluation order:
the amount guard and the withdraw run first, then _get_wallet(None) raises
AttributeError on None.lower(), after the pool has already been debited. -/
def transferOpt (b : Bank) (sender : String) (receiver : Option String)
    (amount : Int) : Option String × Bank :=
  if amount ≤ 0 then (some "invalid amount", b)
  else
    match withdraw b sender amount with
    | (some e, b1) => (some e, b1)
    | (none, b1) =>
      match receiver with
      | none => (some "AttributeError: NoneType has no attribute lower", b1)
      | some r => deposit b1 r amount

/-- The empty bank: no wallet has ever been credited. -/
def bankInit : Bank := fun _ => 0

/-- One ledger operation, as issued by the routes and the engine. -/
inductive BankOp where
  | dep (address : String) (amount : Int)
  | wd (address : String) (amount : Int)
  | tr (sender receiver : String) (amount : Int)
  | trOpt (sender : String) (receiver : Option String) (amount : Int)

/-- Run one ledger operation, keeping the resulting wallet table whether or
not the operation raised. -/
def runOp (b : Bank) : BankOp → Bank
  | .dep a amt => (deposit b a amt).2
  | .wd a amt => (withdraw b a amt).2
  | .tr s r amt => (transfer b s r amt).2
  | .trOpt s r amt => (transferOpt b s r amt).2

/-- Run a sequence of ledger operations. -/
def runOps (b : Bank) (ops : List BankOp) : Bank :=
  ops.foldl runOp b

/-- All wallets of a bank are non-negative. -/
def NonNeg (b : Bank) : Prop := ∀ s, 0 ≤ b s

theorem nonNeg_bankSet {b : Bank} (hb : NonNeg b) {k : String} {v : Int}
    (hv : 0 ≤ v) : NonNeg (bankSet b k v) := by
  intro s
  unfold bankSet
  by_cases h : s = k
  · simp [h, hv]
  · simp [h]
    exact hb s

theorem nonNeg_deposit {b : Bank} (hb : NonNeg b) (a : String) (amt : Int) :
    NonNeg (deposit b a amt).2 := by
  unfold deposit
  by_cases h : amt ≤ 0
  · simpa [h] using hb
  · have h1 : 0 ≤ balance b a + amt := by
      have := hb (pyLower a)
      unfold balance
      omega
    simpa [h] using nonNeg_bankSet hb h1

theorem nonNeg_withdraw {b : Bank} (hb : NonNeg b) (a : String) (amt : Int) :
    NonNeg (withdraw b a amt).2 := by
  unfold withdraw
  by_cases h : amt ≤ 0
  · simpa [h] using hb
  · by_cases h2 : balance b a < amt
    · simpa [h, h2] using hb
    · have h1 : 0 ≤ balance b a - amt := by
        unfold balance at h2 ⊢
        omega
      simpa [h, h2] using nonNeg_bankSet hb h1

theorem nonNeg_transfer {b : Bank} (hb : NonNeg b) (s r : String)
    (amt : Int) : NonNeg (transfer b s r amt).2 := by
  unfold transfer
  by_cases h : amt ≤ 0
  · simpa [h] using hb
  · simp only [h, if_false]
    have hw := nonNeg_withdraw hb s amt
    rcases hww : withdraw b s amt with ⟨e, b1⟩
    rw [hww] at hw
    cases e with
    | some e0 => simpa using hw
    | none => simpa using nonNeg_deposit hw r amt

theorem nonNeg_transferOpt {b : Bank} (hb : NonNeg b) (s : String)
    (r : Option String) (amt : Int) : NonNeg (transferOpt b s r amt).2 := by
  unfold transferOpt
  by_cases h : amt ≤ 0
  · simpa [h] using hb
  · simp only [h, if_false]
    have hw := nonNeg_withdraw hb s amt
    rcases hww : withdraw b s amt with ⟨e, b1⟩
    rw [hww] at hw
    cases e with
    | some e0 => simpa using hw
    | none =>
      cases r with
      | none => simpa using hw
      | some rr => simpa using nonNeg_deposit hw rr amt

theorem nonNeg_runOp {b : Bank} (hb : NonNeg b) (op : BankOp) :
    NonNeg (runOp b op) := by
  cases op with
  | dep a amt => exact nonNeg_deposit hb a amt
  | wd a amt => exact nonNeg_withdraw hb a amt
  | tr s r amt => exact nonNeg_transfer hb s r amt
  | trOpt s r amt => exact nonNeg_transferOpt hb s r amt

theorem nonNeg_runOps (ops : List BankOp) :
    ∀ b : Bank, NonNeg b → NonNeg (runOps b ops) := by
  induction ops with
  | nil => intro b hb; simpa [runOps] using hb
  | cons op rest ih =>
    intro b hb
    have h1 : NonNeg (runOp b op) := nonNeg_runOp hb op
    simpa [runOps, List.foldl] using ih (runOp b op) h1

/-! ## User statistics (user_db.py)

The users table maps raw (not case-normalized) address strings to user
records. Only the operations the routes invoke are embedded. -/

/-- The users table. -/
def Users : Type := String → Option User

/-- Point update of the users table. In Python the routes mutate the user
object returned by get_user in place; in the embedding every mutation of a
looked-up record is written back through this update. -/
def setUser (us : Users) (uid : String) (u : User) : Users :=
  fun x => if x = uid then some u else us x

/-- UsersDatabase.create_user: a fresh record with empty open sets and zero
counters. -/
def create_user (us : Users) (uid : String) : Users :=
  setUser us uid
    { open_claims := [], open_disputes := [], total_disputes := 0,
      won_disputes := 0, total_claims := 0, correct_claims := 0 }

/-- Result of UsersDatabase.won_claim: the updated record, the None return
for an absent user, or the KeyError crash of del on an absent key. -/
inductive WonRes where
  | updated (u : User)
  | noUser
  | keyError
deriving DecidableEq, Repr

/-- Result of UsersDatabase.lost_claim, same shape as WonRes. -/
inductive LostRes where
  | updated (u : User)
  | noUser
  | keyError
deriving DecidableEq, Repr

/-- UsersDatabase.won_claim. The uid argument is Option String because the
validate route passes claim.disputing_user_address, which may be absent;
dict.get(None) returns None in Python, so an absent uid takes the noUser
branch. The counters are incremented before del runs, so on a KeyError the
increments are already committed to the table. -/
def won_claim (us : Users) (uid : Option String) (cid : PyKey) :
    WonRes × Users :=
  match uid with
  | none => (.noUser, us)
  | some s =>
    match us s with
    | none => (.noUser, us)
    | some u =>
      let u1 : User :=
        { u with total_claims := u.total_claims + 1,
                 correct_claims := u.correct_claims + 1 }
      if cid ∈ u1.open_claims then
        let u2 : User := { u1 with open_claims := u1.open_claims.erase cid }
        (.updated u2, setUser us s u2)
      else (.keyError, setUser us s u1)

/-- UsersDatabase.lost_claim: total_claims increment plus del, no
correct_claims increment. -/
def lost_claim (us : Users) (uid : Option String) (cid : PyKey) :
    LostRes × Users :=
  match uid with
  | none => (.noUser, us)
  | some s =>
    match us s with
    | none => (.noUser, us)
    | some u =>
      let u1 : User := { u with total_claims := u.total_claims + 1 }
      if cid ∈ u1.open_claims then
        let u2 : User := { u1 with open_claims := u1.open_claims.erase cid }
        (.updated u2, setUser us s u2)
      else (.keyError, setUser us s u1)

/-! ## Claim registry (claims_db.py) and engine state

The claims dict maps integer ids to claim records; insertion order is kept
because get_claim_by_prep_CID iterates the dict values in that order. -/

/-- The whole engine state: the three databases plus the id counter. -/
structure ES where
  bank : Bank
  claims : List (Nat × Claim)
  nextClaimId : Nat
  users : Users

/-- ClaimsDatabase.get_claim: dict lookup by id. -/
def get_claim : List (Nat × Claim) → Nat → Option Claim
  | [], _ => none
  | p :: l, i => if p.1 = i then some p.2 else get_claim l i

/-- ClaimsDatabase.get_claim_by_prep_CID: first claim in insertion order
whose prepCID matches, regardless of its status. -/
def get_claim_by_prep_CID : List (Nat × Claim) → String → Option Claim
  | [], _ => none
  | p :: l, s => if p.2.prepCID = s then some p.2 else get_claim_by_prep_CID l s

/-- In-place mutation of the claim object stored under an id: the entry is
replaced, all other entries and the order are untouched. -/
def replace_claim (l : List (Nat × Claim)) (i : Nat) (c : Claim) :
    List (Nat × Claim) :=
  l.map fun p => if p.1 = i then (p.1, c) else p

/-- ClaimsDatabase.validate_or_contradict_claim: if the claim exists,
unconditionally writes the given status and the wall-clock lastUpdated.
This is the only registry write the route handlers can reach: create_claim
is cut off by the payload.comp_proof AttributeError, initiate_dispute by
the claim.prep_CID AttributeError, and finalize_claim by the
claim.last_edited AttributeError (see the header note). -/
def validate_or_contradict_claim (wc : Int) (st : ES) (claim_id : Nat)
    (claim_status : Status) : Option Claim × ES :=
  match get_claim st.claims claim_id with
  | none => (none, st)
  | some c =>
    let c1 : Claim := { c with status := claim_status, lastUpdated := wc }
    (some c1, { st with claims := replace_claim st.claims claim_id c1 })

/-! ## Deposit route (register_deposite_route.py, accepted-token path)

process_deposit_and_add_user: creates the user record if absent, then
deposits into the bank; a deposit exception is caught and reported, leaving
the already-performed user creation in place. -/

/-- Result of the deposit route. -/
inductive DepositRes where
  | ok
  | depositFailed (e : String)
deriving DecidableEq, Repr

/-- Accepted-token branch of process_deposit_and_add_user. -/
def process_deposit (st : ES) (depositor : String) (amount : Int) :
    DepositRes × ES :=
  let users1 :=
    match st.users depositor with
    | some _ => st.users
    | none => create_user st.users depositor
  match deposit st.bank depositor amount with
  | (some e, b) => (.depositFailed e, { st with users := users1, bank := b })
  | (none, b) => (.ok, { st with users := users1, bank := b })

/-! ## OpenClaim route (generate_claim_route.py) -/

/-- Result of handle_claim. Each constructor is one exit point of the
source handler; attributeErrorCrash is the uncaught AttributeError raised
at the payload.comp_proof read while the create_and_register_claim
arguments are evaluated. -/
inductive ClaimRes where
  | badCollateral
  | duplicate
  | insufficientFunds
  | lockFailed (e : String)
  | attributeErrorCrash
deriving DecidableEq, Repr

/-- handle_claim: collateral equality check, duplicate prepCID check via
get_claim_by_prep_CID (any status blocks), fund lock into the escrow pool,
then the AttributeError abort at payload.comp_proof (ClaimInput declares
computation_proof, no comp_proof), raised while the arguments of
create_and_register_claim are evaluated. The collateral transfer into the
pool has already been applied at that point; no claim record and no
user-table write is ever made, and the later statements of the handler
(claim creation, update_user_open_claims) are unreachable. The
computation_proof, comp_CID, trigger-timestamp and wall-clock arguments of
the trigger are carried but never consumed before the abort. -/
def handle_claim (st : ES) (sender prep_CID : String) (_comp_CID : String)
    (collateral : Int) (_computation_proof : String) (_ts _wc : Int) :
    ClaimRes × ES :=
  if collateral ≠ COLLATERAL_AMOUNT then (.badCollateral, st)
  else
    match get_claim_by_prep_CID st.claims prep_CID with
    | some _ => (.duplicate, st)
    | none =>
      if balance st.bank sender < COLLATERAL_AMOUNT then
        (.insufficientFunds, st)
      else
        match transfer st.bank sender LOCKED_ASSET_ADDRESS COLLATERAL_AMOUNT with
        | (some e, b1) => (.lockFailed e, { st with bank := b1 })
        | (none, b1) => (.attributeErrorCrash, { st with bank := b1 })

/-! ## Dispute route (generate_dispute_route.py)

check_claim_exists_and_verify_CID reads claim.prep_CID, a field the Claim
model does not declare, so for every EXISTING claim it raises
AttributeError; the helper catches the exception only to log and re-raise
it, and handle_dispute does not catch it. The abort happens before the
prepCID comparison, the eligibility check, the stake transfer,
initiate_dispute and the user-table update, which are therefore all
unreachable dead code and not part of the embedding. -/

/-- Result of handle_dispute. The ok constructor is the final success
return of the handler text; it is unreachable because the existence check
crashes first on every existing claim, and the theorems prove exactly
that. -/
inductive DisputeRes where
  | ok
  | insufficientStake
  | wrongStakeAmount
  | claimNotFound
  | attributeErrorCrash
deriving DecidableEq, Repr

/-- handle_dispute. Steps in source order: stake funds check against the
required stake, then stake amount equality check (each aborts with a
report on failure), then the claim existence check, which either rejects
an unknown id or raises AttributeError at claim.prep_CID for an existing
claim. No branch mutates any state. The wall-clock argument is carried but
never consumed before the abort. -/
def handle_dispute (st : ES) (sender : String) (claimID : Nat)
    (staking_amount : Int) (_prep_CID : String) (_wc : Int) :
    DisputeRes × ES :=
  if balance st.bank sender < VALIDATOR_STAKING then (.insufficientStake, st)
  else if staking_amount ≠ VALIDATOR_STAKING then (.wrongStakeAmount, st)
  else
    match get_claim st.claims claimID with
    | none => (.claimNotFound, st)
    | some _ => (.attributeErrorCrash, st)

/-! ## Finalize route (finalize_claim_route.py)

Both time-gated branches read claim.last_edited, a field the Claim model
does not declare (it declares lastUpdated), so every Finalize of an OPEN or
DISPUTING claim raises AttributeError before any TooEarly computation,
status write, stats update or payout; those later statements are
unreachable dead code and not part of the embedding. The terminal-status
branch does not read last_edited and rejects normally. -/

/-- Result of handle_finalize. attributeErrorCrash is the uncaught
AttributeError at the claim.last_edited read of the epoch gate. -/
inductive FinalizeRes where
  | noParams
  | claimNotFound
  | attributeErrorCrash
  | badStatus
deriving DecidableEq, Repr

/-- handle_finalize: parameter presence, claim existence, then the status
dispatch. The OPEN and DISPUTING branches abort at the claim.last_edited
read; any other status is rejected with the only-Open-or-Disputing error.
No branch mutates any state. The trigger-timestamp and wall-clock
arguments are carried but never consumed before the abort. -/
def handle_finalize (st : ES) (claimID : Nat) (prep_CID : String)
    (_ts _wc : Int) : FinalizeRes × ES :=
  if claimID = 0 ∧ prep_CID = "" then (.noParams, st)
  else
    match get_claim st.claims claimID with
    | none => (.claimNotFound, st)
    | some c =>
      match c.status with
      | .OPEN => (.attributeErrorCrash, st)
      | .DISPUTING => (.attributeErrorCrash, st)
      | _ => (.badStatus, st)

/-! ## Validate route (validate_claim_route.py)

The proof recomputation (calculate_endpoint_usage, a pandas filter, groupby
sum over float64, CSV rendering and SHA-256) supplies only a Boolean to the
rest of the handler; the embedding takes that Boolean as the isValid
argument (see the header note and claim C5). -/

/-- Result of handle_validate. -/
inductive ValidateRes where
  | ok
  | noParams
  | claimNotFound
  | badStatus
  | notOwner
  | statsKeyError
  | transferFailed (e : String)
deriving DecidableEq, Repr

/-- Payout step of the matching branch of validate_and_finalize_claim: the
claimant is paid collateral + stake + incentive from the pool,
UNCONDITIONALLY including the stake even when no disputant ever posted
one. -/
def validate_won_pay (c : Claim) (st : ES) : ValidateRes × ES :=
  match transfer st.bank LOCKED_ASSET_ADDRESS c.user_address
      (COLLATERAL_AMOUNT + VALIDATOR_STAKING + CLAIM_INCENTIVE) with
  | (some e, b) => (.transferFailed e, { st with bank := b })
  | (none, b) => (.ok, { st with bank := b })

/-- Matching branch after the disputant update: registry write VALIDATED,
claimant won_claim (KeyError crashes propagate), then the payout. -/
def validate_won_finish (wc : Int) (c : Claim) (claimID : Nat) (st : ES) :
    ValidateRes × ES :=
  let st1 := (validate_or_contradict_claim wc st claimID .VALIDATED).2
  match won_claim st1.users (some c.user_address) (.pyInt claimID) with
  | (.keyError, us) => (.statsKeyError, { st1 with users := us })
  | (_, us) => validate_won_pay c { st1 with users := us }

/-- Payout step of the mismatch branch: collateral + stake + incentive are
sent to the recorded disputant; when no disputant exists the source
addresses None, which debits the pool and then raises (transferOpt). -/
def validate_lost_pay (c : Claim) (st : ES) : ValidateRes × ES :=
  match transferOpt st.bank LOCKED_ASSET_ADDRESS c.disputing_user_address
      (COLLATERAL_AMOUNT + VALIDATOR_STAKING + CLAIM_INCENTIVE) with
  | (some e, b) => (.transferFailed e, { st with bank := b })
  | (none, b) => (.ok, { st with bank := b })

/-- Mismatch branch after the disputant update: registry write CONTRADICTED,
claimant lost_claim, then the payout to the (possibly absent) disputant. -/
def validate_lost_finish (wc : Int) (c : Claim) (claimID : Nat) (st : ES) :
    ValidateRes × ES :=
  let st1 := (validate_or_contradict_claim wc st claimID .CONTRADICTED).2
  match lost_claim st1.users (some c.user_address) (.pyInt claimID) with
  | (.keyError, us) => (.statsKeyError, { st1 with users := us })
  | (_, us) => validate_lost_pay c { st1 with users := us }

/-- validate_and_finalize_claim. The claim object is read once up front; on
a match the disputant (if the claim is DISPUTING) records a lost claim and
the claimant a won claim, on a mismatch the roles swap. All four stats
calls address the INT claim id key. A None return of won_claim or
lost_claim (absent user) is silently ignored by the source; a KeyError
aborts with the increments already committed. -/
def validate_and_finalize_claim (wc : Int) (st : ES) (claimID : Nat)
    (isValid : Bool) : ValidateRes × ES :=
  match get_claim st.claims claimID with
  | none => (.claimNotFound, st)
  | some c =>
    if isValid then
      if c.status = Status.DISPUTING then
        match lost_claim st.users c.disputing_user_address (.pyInt claimID) with
        | (.keyError, us) => (.statsKeyError, { st with users := us })
        | (_, us) => validate_won_finish wc c claimID { st with users := us }
      else validate_won_finish wc c claimID st
    else
      if c.status = Status.DISPUTING then
        match won_claim st.users c.disputing_user_address (.pyInt claimID) with
        | (.keyError, us) => (.statsKeyError, { st with users := us })
        | (_, us) => validate_lost_finish wc c claimID { st with users := us }
      else validate_lost_finish wc c claimID st

/-- handle_validate: parameter presence, claim existence, status in
OPEN/DISPUTING, ownership by the sender, then validate_and_finalize_claim. -/
def handle_validate (st : ES) (sender : String) (claimID : Nat)
    (preprocessed_data : String) (_ts wc : Int) (isValid : Bool) :
    ValidateRes × ES :=
  if claimID = 0 ∨ preprocessed_data = "" then (.noParams, st)
  else
    match get_claim st.claims claimID with
    | none => (.claimNotFound, st)
    | some c =>
      if ¬(c.status = Status.OPEN ∨ c.status = Status.DISPUTING) then
        (.badStatus, st)
      else if c.user_address ≠ sender then (.notOwner, st)
      else validate_and_finalize_claim wc st claimID isValid

/-! ## Concrete states used by the claim theorems

The source program can never create a claim record (the claim-creation
route aborts at payload.comp_proof after locking the collateral), so no
state holding a claim is reachable from the empty state. The per-trigger
claims are therefore settled over crafted states that satisfy their
premises, built to match what the data model and the (unreachable)
creation code would store. Addresses are lowercase so that the case
normalization of the ledger and the raw keying of the users table agree. -/

/-- An OPEN claim by alice, opened at trigger time 0, no disputant. -/
def vClaim : Claim :=
  { user_address := "alice", disputing_user_address := none,
    timestamp_of_claim := "0", status := .OPEN,
    collateral := COLLATERAL_AMOUNT, compProof := "h", compCID := "cc",
    prepCID := "pv", lastUpdated := 50 }

/-- Claimant record holding the open claim under the INT key 1, so that the
validate-route stats updates (which address the int payload.claimID)
succeed and the payout line is reached. -/
def aliceUser : User :=
  { open_claims := [.pyInt 1], open_disputes := [], total_disputes := 0,
    won_disputes := 0, total_claims := 0, correct_claims := 0 }

/-- Engine state for the validate-route theorems: claim 1 OPEN by alice,
the locked pool holding collateral + stake + incentive (several claims
worth of escrow), alice present in the users table. -/
def vState : ES :=
  { bank := fun s => if s = LOCKED_ASSET_ADDRESS then
      COLLATERAL_AMOUNT + VALIDATOR_STAKING + CLAIM_INCENTIVE else 0,
    claims := [(1, vClaim)], nextClaimId := 2,
    users := fun s => if s = "alice" then some aliceUser else none }

/-- Claimant record holding the open claim under the STRING key "1", the
representation the claim-creation code itself would insert
(update_user_open_claims writes str(new_claim_id)). -/
def v4User : User :=
  { open_claims := [.pyStr "1"], open_disputes := [], total_disputes := 0,
    won_disputes := 0, total_claims := 0, correct_claims := 0 }

/-- Engine state like vState but with the claim id stored as the string
key, for the open-set membership claim. -/
def v4State : ES :=
  { bank := fun s => if s = LOCKED_ASSET_ADDRESS then
      COLLATERAL_AMOUNT + VALIDATOR_STAKING + CLAIM_INCENTIVE else 0,
    claims := [(1, vClaim)], nextClaimId := 2,
    users := fun s => if s = "alice" then some v4User else none }

/-- A terminal VALIDATED claim by dave. -/
def c2Claim : Claim :=
  { user_address := "dave", disputing_user_address := none,
    timestamp_of_claim := "0", status := .VALIDATED,
    collateral := COLLATERAL_AMOUNT, compProof := "h", compCID := "cc",
    prepCID := "pw", lastUpdated := 0 }

/-- Engine state with the terminal VALIDATED claim 9 and a disputant frank
funded with the exact required stake. -/
def c2State : ES :=
  { bank := fun s => if s = "frank" then VALIDATOR_STAKING else 0,
    claims := [(9, c2Claim)], nextClaimId := 10, users := fun _ => none }

/-- A state holding only a TERMINAL claim bound to prepCID "p7", with a
funded fresh claimant erin. Used for the duplicate-check claim. -/
def c7State : ES :=
  { bank := fun s => if s = "erin" then COLLATERAL_AMOUNT else 0,
    claims := [(1,
      { user_address := "dave", disputing_user_address := none,
        timestamp_of_claim := "0", status := .FINALIZED,
        collateral := COLLATERAL_AMOUNT, compProof := "h", compCID := "cc",
        prepCID := "p7", lastUpdated := 0 })],
    nextClaimId := 2, users := fun _ => none }


/-! ## Helper lemmas -/

theorem get_claim_by_prep_CID_eq_none {l : List (Nat × Claim)} {s : String}
    (h : ∀ p ∈ l, p.2.prepCID ≠ s) : get_claim_by_prep_CID l s = none := by
  induction l with
  | nil => rfl
  | cons x xs ih =>
    have hx : x.2.prepCID ≠ s := h x (List.mem_cons_self x xs)
    simp only [get_claim_by_prep_CID, hx, if_false]
    exact ih fun p hp => h p (List.mem_cons_of_mem x hp)

theorem get_claim_by_prep_CID_isSome {l : List (Nat × Claim)} {s : String}
    (h : ∃ p ∈ l, p.2.prepCID = s) :
    ∃ c, get_claim_by_prep_CID l s = some c := by
  induction l with
  | nil =>
    obtain ⟨p, hp, _⟩ := h
    exact absurd hp (List.not_mem_nil p)
  | cons x xs ih =>
    by_cases hx : x.2.prepCID = s
    · exact ⟨x.2, by simp [get_claim_by_prep_CID, hx]⟩
    · obtain ⟨p, hp, hps⟩ := h
      rcases List.mem_cons.mp hp with h1 | h2
      · exact absurd (h1 ▸ hps) hx
      · obtain ⟨c, hc⟩ := ih ⟨p, h2, hps⟩
        exact ⟨c, by simp [get_claim_by_prep_CID, hx, hc]⟩

theorem get_claim_replace (l : List (Nat × Claim)) (id0 : Nat) (c1 : Claim)
    (i : Nat) :
    get_claim (replace_claim l id0 c1) i
      = (get_claim l i).map (fun c0 => if i = id0 then c1 else c0) := by
  induction l with
  | nil => rfl
  | cons p l ih =>
    simp only [replace_claim, List.map_cons] at ih ⊢
    by_cases hp : p.1 = id0
    · rw [if_pos hp]
      by_cases hi : p.1 = i
      · have hii : i = id0 := hi ▸ hp
        simp [get_claim, hi, hii]
      · simp [get_claim, hi, ih]
    · rw [if_neg hp]
      by_cases hi : p.1 = i
      · have hii : i ≠ id0 := fun h => hp (hi.trans h)
        simp [get_claim, hi, hii]
      · simp [get_claim, hi, ih]

theorem validate_or_contradict_claims (wc : Int) (st : ES) (id0 : Nat)
    (s : Status) (c0 : Claim) (h : get_claim st.claims id0 = some c0) :
    (validate_or_contradict_claim wc st id0 s).2.claims
      = replace_claim st.claims id0
          { c0 with status := s, lastUpdated := wc } := by
  simp [validate_or_contradict_claim, h]

theorem validate_won_pay_claims (c : Claim) (st : ES) :
    (validate_won_pay c st).2.claims = st.claims := by
  unfold validate_won_pay
  rcases h : transfer st.bank LOCKED_ASSET_ADDRESS c.user_address
      (COLLATERAL_AMOUNT + VALIDATOR_STAKING + CLAIM_INCENTIVE) with ⟨e, b⟩
  cases e <;> rfl

theorem validate_lost_pay_claims (c : Claim) (st : ES) :
    (validate_lost_pay c st).2.claims = st.claims := by
  unfold validate_lost_pay
  rcases h : transferOpt st.bank LOCKED_ASSET_ADDRESS
      c.disputing_user_address
      (COLLATERAL_AMOUNT + VALIDATOR_STAKING + CLAIM_INCENTIVE) with ⟨e, b⟩
  cases e <;> rfl

theorem validate_won_finish_claims (wc : Int) (c : Claim) (claimID : Nat)
    (st : ES) :
    (validate_won_finish wc c claimID st).2.claims
      = (validate_or_contradict_claim wc st claimID Status.VALIDATED).2.claims
    := by
  simp only [validate_won_finish]
  generalize (validate_or_contradict_claim wc st claimID Status.VALIDATED).2
    = st1
  rcases h : won_claim st1.users (some c.user_address) (PyKey.pyInt claimID)
    with ⟨r, us⟩
  cases r
  · simp [validate_won_pay_claims]
  · simp [validate_won_pay_claims]
  · rfl

theorem validate_lost_finish_claims (wc : Int) (c : Claim) (claimID : Nat)
    (st : ES) :
    (validate_lost_finish wc c claimID st).2.claims
      = (validate_or_contradict_claim wc st claimID
          Status.CONTRADICTED).2.claims := by
  simp only [validate_lost_finish]
  generalize (validate_or_contradict_claim wc st claimID Status.CONTRADICTED).2
    = st1
  rcases h : lost_claim st1.users (some c.user_address) (PyKey.pyInt claimID)
    with ⟨r, us⟩
  cases r
  · simp [validate_lost_pay_claims]
  · simp [validate_lost_pay_claims]
  · rfl

theorem validate_and_finalize_claims_shape (wc : Int) (st : ES)
    (claimID : Nat) (v : Bool) (c0 : Claim)
    (h : get_claim st.claims claimID = some c0) :
    (validate_and_finalize_claim wc st claimID v).2.claims = st.claims
    ∨ (validate_and_finalize_claim wc st claimID v).2.claims
        = replace_claim st.claims claimID
            { c0 with status := Status.VALIDATED, lastUpdated := wc }
    ∨ (validate_and_finalize_claim wc st claimID v).2.claims
        = replace_claim st.claims claimID
            { c0 with status := Status.CONTRADICTED, lastUpdated := wc } := by
  have hwon : ∀ us : Users,
      (validate_won_finish wc c0 claimID { st with users := us }).2.claims
        = replace_claim st.claims claimID
            { c0 with status := Status.VALIDATED, lastUpdated := wc } := by
    intro us
    rw [validate_won_finish_claims,
      validate_or_contradict_claims wc { st with users := us } claimID
        Status.VALIDATED c0 h]
  have hlost : ∀ us : Users,
      (validate_lost_finish wc c0 claimID { st with users := us }).2.claims
        = replace_claim st.claims claimID
            { c0 with status := Status.CONTRADICTED, lastUpdated := wc } := by
    intro us
    rw [validate_lost_finish_claims,
      validate_or_contradict_claims wc { st with users := us } claimID
        Status.CONTRADICTED c0 h]
  simp only [validate_and_finalize_claim, h]
  by_cases hv : v = true
  · rw [if_pos hv]
    by_cases hd : c0.status = Status.DISPUTING
    · rw [if_pos hd]
      rcases hl : lost_claim st.users c0.disputing_user_address
          (PyKey.pyInt claimID) with ⟨r, us⟩
      cases r
      · exact Or.inr (Or.inl (hwon us))
      · exact Or.inr (Or.inl (hwon us))
      · exact Or.inl rfl
    · rw [if_neg hd]
      exact Or.inr (Or.inl (hwon st.users))
  · rw [if_neg hv]
    by_cases hd : c0.status = Status.DISPUTING
    · rw [if_pos hd]
      rcases hl : won_claim st.users c0.disputing_user_address
          (PyKey.pyInt claimID) with ⟨r, us⟩
      cases r
      · exact Or.inr (Or.inr (hlost us))
      · exact Or.inr (Or.inr (hlost us))
      · exact Or.inl rfl
    · rw [if_neg hd]
      exact Or.inr (Or.inr (hlost st.users))

/-! ## Claim theorems -/

/-- Claim C1: for every Dispute trigger on an existing claim whose prepCID
matches, when a precondition fails (status not OPEN, self dispute, or the
stake transfer could not be funded), the operation does not succeed and no
Ledger, ClaimRegistry or UserStatsTracker mutation is observable: the
returned state is exactly the input state. The proof shows this for EVERY
dispute on an existing claim: the route either rejects at the stake guard
or aborts at the AttributeError raised by the claim.prep_CID read, in both
cases before any mutation; the non-aborting eligibility sequence that spec
section 9 worries about is unreachable dead code. -/
theorem dispute_on_existing_claim_never_mutates :
    ∀ (st : ES) (sender : String) (claimID : Nat) (stake : Int)
      (prep : String) (wc : Int) (c : Claim),
      get_claim st.claims claimID = some c →
      c.prepCID = prep →
      (c.status ≠ Status.OPEN ∨ c.user_address = sender
        ∨ balance st.bank sender < stake) →
      (handle_dispute st sender claimID stake prep wc).1 ≠ DisputeRes.ok
      ∧ (handle_dispute st sender claimID stake prep wc).2 = st := by
  intro st sender claimID stake prep wc c h1 _h2 _h3
  unfold handle_dispute
  by_cases hb : balance st.bank sender < VALIDATOR_STAKING
  · rw [if_pos hb]
    exact ⟨by simp, rfl⟩
  · rw [if_neg hb]
    by_cases hs : stake ≠ VALIDATOR_STAKING
    · rw [if_pos hs]
      exact ⟨by simp, rfl⟩
    · rw [if_neg hs]
      refine ⟨?_, ?_⟩ <;> simp [h1]

/-- Claim C1, witness: the theorem applied at the concrete state c2State,
whose claim 9 is terminal VALIDATED (so the status precondition fails) and
whose prepCID matches, with a fully funded disputant. -/
theorem dispute_on_existing_claim_never_mutates_witness :
    (handle_dispute c2State "frank" 9 VALIDATOR_STAKING "pw" 5).1
        ≠ DisputeRes.ok
    ∧ (handle_dispute c2State "frank" 9 VALIDATOR_STAKING "pw" 5).2
        = c2State :=
  dispute_on_existing_claim_never_mutates c2State "frank" 9 VALIDATOR_STAKING
    "pw" 5 c2Claim (by decide) rfl (Or.inl (by decide))

/-- Claim C2, counterexample: a Dispute against the terminal VALIDATED
claim 9 is a disallowed transition attempt, and the code does not yield an
InvalidTransition rejection for it: it aborts with the uncaught
AttributeError at the claim.prep_CID read (the state is unchanged). -/
theorem dispute_terminal_claim_crashes_untyped :
    (get_claim c2State.claims 9).map Claim.status = some Status.VALIDATED
    ∧ handle_dispute c2State "frank" 9 VALIDATOR_STAKING "pw" 0 =
        (DisputeRes.attributeErrorCrash, c2State) :=
  ⟨by decide, rfl⟩

/-- Claim C2, amended: per trigger, every claim status moves only along the
specified graph. The dispute and finalize routes never change any state at
all (both abort or reject before any write); the claim route never touches
the registry; the validate route moves a status only from OPEN or
DISPUTING to VALIDATED or CONTRADICTED, all allowed edges, and leaves every
other claim untouched. A disallowed transition attempt leaves all state
unchanged: the validate and finalize routes reject it with the
only-Open-or-Disputing error, while the dispute route aborts with the
AttributeError crash instead of a typed InvalidTransition rejection. -/
theorem status_graph_and_disallowed_attempts :
    (∀ (st : ES) (sender : String) (claimID : Nat) (stake : Int)
        (prep : String) (wc : Int),
      (handle_dispute st sender claimID stake prep wc).2 = st)
    ∧ (∀ (st : ES) (claimID : Nat) (prep : String) (ts wc : Int),
      (handle_finalize st claimID prep ts wc).2 = st)
    ∧ (∀ (st : ES) (sender prep comp pf : String) (coll ts wc : Int),
      (handle_claim st sender prep comp coll pf ts wc).2.claims = st.claims)
    ∧ (∀ (st : ES) (sender : String) (claimID : Nat) (data : String)
        (ts wc : Int) (v : Bool) (i : Nat) (c c2 : Claim),
      get_claim st.claims i = some c →
      get_claim (handle_validate st sender claimID data ts wc v).2.claims i
        = some c2 →
      c2.status = c.status
      ∨ ((c.status = Status.OPEN ∨ c.status = Status.DISPUTING)
          ∧ (c2.status = Status.VALIDATED
              ∨ c2.status = Status.CONTRADICTED)))
    ∧ (∀ (st : ES) (sender : String) (claimID : Nat) (data : String)
        (ts wc : Int) (v : Bool) (c : Claim),
      ¬(claimID = 0 ∨ data = "") →
      get_claim st.claims claimID = some c →
      c.status ≠ Status.OPEN → c.status ≠ Status.DISPUTING →
      handle_validate st sender claimID data ts wc v
        = (ValidateRes.badStatus, st))
    ∧ (∀ (st : ES) (claimID : Nat) (prep : String) (ts wc : Int)
        (c : Claim),
      ¬(claimID = 0 ∧ prep = "") →
      get_claim st.claims claimID = some c →
      c.status ≠ Status.OPEN → c.status ≠ Status.DISPUTING →
      handle_finalize st claimID prep ts wc = (FinalizeRes.badStatus, st)) := by
  refine ⟨?_, ?_, ?_, ?_, ?_, ?_⟩
  · intro st sender claimID stake prep wc
    unfold handle_dispute
    by_cases hb : balance st.bank sender < VALIDATOR_STAKING
    · rw [if_pos hb]
    · rw [if_neg hb]
      by_cases hs : stake ≠ VALIDATOR_STAKING
      · rw [if_pos hs]
      · rw [if_neg hs]
        rcases h : get_claim st.claims claimID with _ | c <;> simp [h]
  · intro st claimID prep ts wc
    unfold handle_finalize
    by_cases h0 : claimID = 0 ∧ prep = ""
    · rw [if_pos h0]
    · rw [if_neg h0]
      rcases h : get_claim st.claims claimID with _ | c
      · simp [h]
      · simp only [h]
        cases c.status <;> rfl
  · intro st sender prep comp pf coll ts wc
    unfold handle_claim
    by_cases h1 : coll ≠ COLLATERAL_AMOUNT
    · rw [if_pos h1]
    · rw [if_neg h1]
      rcases h2 : get_claim_by_prep_CID st.claims prep with _ | c
      · simp only [h2]
        by_cases h3 : balance st.bank sender < COLLATERAL_AMOUNT
        · rw [if_pos h3]
        · rw [if_neg h3]
          rcases h4 : transfer st.bank sender LOCKED_ASSET_ADDRESS
              COLLATERAL_AMOUNT with ⟨e, b1⟩
          cases e <;> rfl
      · simp [h2]
  · intro st sender claimID data ts wc v i c c2 hi hres
    have heq : ∀ {d : Claim}, get_claim st.claims i = some d →
        d.status = c.status := by
      intro d hd
      rw [hi] at hd
      cases hd
      rfl
    unfold handle_validate at hres
    split at hres
    · exact Or.inl (heq hres)
    · split at hres
      · exact Or.inl (heq hres)
      · next c0 hc =>
          split at hres
          · exact Or.inl (heq hres)
          · next hst =>
            split at hres
            · exact Or.inl (heq hres)
            · rcases validate_and_finalize_claims_shape wc st claimID v c0 hc
                with hs | hs | hs
              · rw [hs] at hres
                exact Or.inl (heq hres)
              · rw [hs, get_claim_replace, hi] at hres
                simp only [Option.map_some'] at hres
                by_cases hii : i = claimID
                · rw [if_pos hii] at hres
                  cases hres
                  refine Or.inr ⟨?_, Or.inl rfl⟩
                  have hcc : c = c0 := by
                    rw [hii] at hi
                    rw [hi] at hc
                    cases hc
                    rfl
                  rw [hcc]
                  exact not_not.mp hst
                · rw [if_neg hii] at hres
                  cases hres
                  exact Or.inl rfl
              · rw [hs, get_claim_replace, hi] at hres
                simp only [Option.map_some'] at hres
                by_cases hii : i = claimID
                · rw [if_pos hii] at hres
                  cases hres
                  refine Or.inr ⟨?_, Or.inr rfl⟩
                  have hcc : c = c0 := by
                    rw [hii] at hi
                    rw [hi] at hc
                    cases hc
                    rfl
                  rw [hcc]
                  exact not_not.mp hst
                · rw [if_neg hii] at hres
                  cases hres
                  exact Or.inl rfl
  · intro st sender claimID data ts wc v c h0 hc hno hnd
    simp [handle_validate, h0, hc, hno, hnd]
  · intro st claimID prep ts wc c h0 hc hno hnd
    simp only [handle_finalize, if_neg h0, hc]

/-- Claim C2, witness: the disallowed-attempt rejections of the amended
theorem applied at the concrete state c2State, whose claim 9 is terminal
VALIDATED. -/
theorem status_graph_and_disallowed_attempts_witness :
    handle_validate c2State "dave" 9 "raw" 3 4 true
        = (ValidateRes.badStatus, c2State)
    ∧ handle_finalize c2State 9 "pw" 3 4 = (FinalizeRes.badStatus, c2State) :=
  ⟨status_graph_and_disallowed_attempts.2.2.2.2.1 c2State "dave" 9 "raw" 3 4
      true c2Claim (by decide) (by decide) (by decide) (by decide),
   status_graph_and_disallowed_attempts.2.2.2.2.2 c2State 9 "pw" 3 4 c2Claim
      (by decide) (by decide) (by decide) (by decide)⟩

/-- Claim C3. Refuting evaluation: a matching Validate by the claimant on
the OPEN claim 1 of vState, which has NO disputant, succeeds and credits
the claimant collateral + stake + incentive rather than the claimed
collateral + incentive: the payout line of validate_and_finalize_claim
includes VALIDATOR_STAKING unconditionally, draining escrow that other
claims funded (the pool of vState holds exactly that surplus). -/
theorem validate_match_open_credits_stake_unconditionally :
    (get_claim vState.claims 1).map Claim.status = some Status.OPEN
    ∧ (get_claim vState.claims 1).map Claim.disputing_user_address
        = some none
    ∧ (handle_validate vState "alice" 1 "raw" 60 70 true).1 = ValidateRes.ok
    ∧ balance (handle_validate vState "alice" 1 "raw" 60 70 true).2.bank
        "alice" = COLLATERAL_AMOUNT + VALIDATOR_STAKING + CLAIM_INCENTIVE
    ∧ COLLATERAL_AMOUNT + VALIDATOR_STAKING + CLAIM_INCENTIVE
        ≠ COLLATERAL_AMOUNT + CLAIM_INCENTIVE := by decide

/-- Claim C4. Refuting evaluation: in v4State the claimant open_claims set
holds the claim id in the string form the claim-creation code itself
inserts (str(new_claim_id)); after a matching Validate the claim is
terminal VALIDATED yet the id is still in open_claims, because won_claim
deletes the INT key and raises KeyError. Moreover a successful Finalize of
an OPEN claim, the event named by the claim, never occurs at all: the
finalize route aborts with AttributeError at the claim.last_edited read,
leaving the state untouched. -/
theorem terminal_claim_id_stays_in_open_claims :
    (v4State.users "alice").map User.open_claims = some [PyKey.pyStr "1"]
    ∧ (handle_validate v4State "alice" 1 "raw" 60 70 true).1
        = ValidateRes.statsKeyError
    ∧ (get_claim (handle_validate v4State "alice" 1 "raw" 60 70 true).2.claims
        1).map Claim.status = some Status.VALIDATED
    ∧ ((handle_validate v4State "alice" 1 "raw" 60 70 true).2.users
        "alice").map User.open_claims = some [PyKey.pyStr "1"]
    ∧ (handle_finalize v4State 1 "pv" 999 70).1
        = FinalizeRes.attributeErrorCrash
    ∧ (handle_finalize v4State 1 "pv" 999 70).2 = v4State :=
  ⟨by decide, by decide, by decide, by decide, by decide, rfl⟩

/-- Claim C6. Refuting evaluation: a non-matching Validate on the OPEN
claim 1 of vState, which has NO disputant, writes CONTRADICTED and then
addresses the absent disputant: the payout debits the pool by collateral +
stake + incentive and the deposit raises AttributeError on the None
address, so the escrow vanishes; nothing is forfeited to any
protocol-treasury destination (none exists in the code) and the claimant
also receives nothing. -/
theorem contradicted_without_disputant_destroys_escrow :
    (get_claim vState.claims 1).map Claim.disputing_user_address = some none
    ∧ (handle_validate vState "alice" 1 "raw" 60 70 false).1
        = ValidateRes.transferFailed
            "AttributeError: NoneType has no attribute lower"
    ∧ (get_claim (handle_validate vState "alice" 1 "raw" 60 70 false).2.claims
        1).map Claim.status = some Status.CONTRADICTED
    ∧ balance (handle_validate vState "alice" 1 "raw" 60 70 false).2.bank
        LOCKED_ASSET_ADDRESS = 0
    ∧ balance (handle_validate vState "alice" 1 "raw" 60 70 false).2.bank
        "alice" = 0 := by decide

/-- Claim C8. Refuting evaluation: claim 1 of vState is OPEN and was opened
at trigger time 0, yet the Finalize triggers carrying timestamps 29 and 30
both abort with the uncaught AttributeError at the claim.last_edited read
(Claim declares lastUpdated): no TooEarly rejection with any remaining
value is ever produced, no claim is ever FINALIZED, and the state is
unchanged. -/
theorem finalize_open_claim_always_raises :
    (get_claim vState.claims 1).map Claim.status = some Status.OPEN
    ∧ (get_claim vState.claims 1).map Claim.timestamp_of_claim = some "0"
    ∧ handle_finalize vState 1 "pv" 29 999
        = (FinalizeRes.attributeErrorCrash, vState)
    ∧ handle_finalize vState 1 "pv" 30 999
        = (FinalizeRes.attributeErrorCrash, vState) :=
  ⟨by decide, by decide, rfl, rfl⟩


/-- Claim C7, counterexample: in c7State the only claim bound to prepCID
"p7" is terminal (FINALIZED), erin is funded with the exact collateral, yet
her OpenClaim with prepCID "p7" is rejected as a duplicate with the state
unchanged, contradicting the claim that it succeeds. -/
theorem open_claim_rejected_for_terminal_prepCID :
    (get_claim c7State.claims 1).map Claim.status = some Status.FINALIZED
    ∧ handle_claim c7State "erin" "p7" "cc2" COLLATERAL_AMOUNT "pr" 0 0 =
        (ClaimRes.duplicate, c7State) :=
  ⟨by decide, rfl⟩

/-- Claim C7, amended: the duplicate check of OpenClaim rejects exactly
when the preparationCID is bound to ANY existing claim, terminal or not
(get_claim_by_prep_CID ignores status); with a correct collateral, a bound
prepCID yields the duplicate rejection with no state change. An OpenClaim
with an unbound prepCID, the required collateral and sufficient funds does
NOT succeed either: the route locks the collateral into the escrow pool
and then aborts with AttributeError at the payload.comp_proof read,
creating no claim and writing no registry or user-table entry. -/
theorem duplicate_check_blocks_any_existing_prepCID :
    (∀ (st : ES) (sender prep comp pf : String) (coll ts wc : Int),
      coll = COLLATERAL_AMOUNT →
      (∃ p ∈ st.claims, p.2.prepCID = prep) →
      handle_claim st sender prep comp coll pf ts wc = (.duplicate, st))
    ∧ (∀ (st : ES) (sender prep comp pf : String) (coll ts wc : Int),
      coll = COLLATERAL_AMOUNT →
      (∀ p ∈ st.claims, p.2.prepCID ≠ prep) →
      COLLATERAL_AMOUNT ≤ balance st.bank sender →
      (handle_claim st sender prep comp coll pf ts wc).1 =
          ClaimRes.attributeErrorCrash
      ∧ (handle_claim st sender prep comp coll pf ts wc).2.claims = st.claims
      ∧ (handle_claim st sender prep comp coll pf ts wc).2.users = st.users
      ∧ (pyLower sender ≠ pyLower LOCKED_ASSET_ADDRESS →
          balance (handle_claim st sender prep comp coll pf ts wc).2.bank
              sender
            = balance st.bank sender - COLLATERAL_AMOUNT
          ∧ balance (handle_claim st sender prep comp coll pf ts wc).2.bank
              LOCKED_ASSET_ADDRESS
            = balance st.bank LOCKED_ASSET_ADDRESS + COLLATERAL_AMOUNT)) := by
  constructor
  · intro st sender prep comp pf coll ts wc hcol hex
    obtain ⟨c, hc⟩ := get_claim_by_prep_CID_isSome hex
    subst hcol
    simp [handle_claim, hc]
  · intro st sender prep comp pf coll ts wc hcol hnone hbal
    subst hcol
    have hn : get_claim_by_prep_CID st.claims prep = none :=
      get_claim_by_prep_CID_eq_none hnone
    have hlt : ¬ balance st.bank sender < COLLATERAL_AMOUNT := not_lt.mpr hbal
    have hca : ¬ (COLLATERAL_AMOUNT : Int) ≤ 0 := by decide
    have hw : withdraw st.bank sender COLLATERAL_AMOUNT =
        (none, bankSet st.bank (pyLower sender)
          (balance st.bank sender - COLLATERAL_AMOUNT)) := by
      unfold withdraw
      rw [if_neg hca, if_neg hlt]
    have ht : transfer st.bank sender LOCKED_ASSET_ADDRESS COLLATERAL_AMOUNT
        = (none,
            (deposit
              (bankSet st.bank (pyLower sender)
                (balance st.bank sender - COLLATERAL_AMOUNT))
              LOCKED_ASSET_ADDRESS COLLATERAL_AMOUNT).2) := by
      unfold transfer
      rw [if_neg hca, hw]
      simp [deposit, hca]
    refine ⟨?_, ?_, ?_, ?_⟩
    · simp [handle_claim, hn, hlt, ht]
    · simp [handle_claim, hn, hlt, ht]
    · simp [handle_claim, hn, hlt, ht]
    · intro hne
      have hlt2 : ¬ st.bank (pyLower sender) < COLLATERAL_AMOUNT := hlt
      have hne2 : pyLower LOCKED_ASSET_ADDRESS ≠ pyLower sender :=
        Ne.symm hne
      constructor
      · simp [handle_claim, hn, ht, deposit, hca, balance, bankSet, hlt2,
          hne, hne2]
      · simp [handle_claim, hn, ht, deposit, hca, balance, bankSet, hlt2,
          hne, hne2]

/-- Claim C7, witness: both branches of the amended theorem applied at
concrete inputs over c7State. The bound prepCID "p7" of the FINALIZED
claim is rejected as duplicate; the fresh prepCID "q7" locks the
collateral into the pool and aborts, creating no claim. -/
theorem duplicate_check_blocks_any_existing_prepCID_witness :
    handle_claim c7State "erin" "p7" "cc8" COLLATERAL_AMOUNT "pr8" 5 6 =
      (ClaimRes.duplicate, c7State)
    ∧ (handle_claim c7State "erin" "q7" "cc9" COLLATERAL_AMOUNT "pr9" 3 4).1 =
      ClaimRes.attributeErrorCrash
    ∧ (handle_claim c7State "erin" "q7" "cc9" COLLATERAL_AMOUNT "pr9" 3 4).2.claims
        = c7State.claims
    ∧ balance (handle_claim c7State "erin" "q7" "cc9" COLLATERAL_AMOUNT
          "pr9" 3 4).2.bank LOCKED_ASSET_ADDRESS
        = balance c7State.bank LOCKED_ASSET_ADDRESS + COLLATERAL_AMOUNT := by
  refine ⟨?_, ?_, ?_, ?_⟩
  · exact duplicate_check_blocks_any_existing_prepCID.1 c7State "erin" "p7"
      "cc8" "pr8" COLLATERAL_AMOUNT 5 6 rfl (by decide)
  · exact (duplicate_check_blocks_any_existing_prepCID.2 c7State "erin" "q7"
      "cc9" "pr9" COLLATERAL_AMOUNT 3 4 rfl (by decide) (by decide)).1
  · exact (duplicate_check_blocks_any_existing_prepCID.2 c7State "erin" "q7"
      "cc9" "pr9" COLLATERAL_AMOUNT 3 4 rfl (by decide) (by decide)).2.1
  · exact ((duplicate_check_blocks_any_existing_prepCID.2 c7State "erin" "q7"
      "cc9" "pr9" COLLATERAL_AMOUNT 3 4 rfl (by decide) (by decide)).2.2.2
      (by decide)).2

/-- Claim C9: after any sequence of ledger operations starting from the
empty bank, every balance is non-negative; and a withdraw of a positive
amount exceeding the balance is rejected with the insufficient-funds error
and leaves the wallet table untouched, instead of driving a balance
negative. -/
theorem bank_balances_never_negative :
    (∀ (ops : List BankOp) (a : String), 0 ≤ balance (runOps bankInit ops) a)
    ∧ (∀ (b : Bank) (a : String) (amt : Int), 0 < amt → balance b a < amt →
        withdraw b a amt = (some "insufficient funds", b)) := by
  constructor
  · intro ops a
    exact nonNeg_runOps ops bankInit (fun _ => le_refl 0) (pyLower a)
  · intro b a amt h1 h2
    unfold withdraw
    rw [if_neg (by omega), if_pos h2]

/-- Claim C9, witness: the invariant after a concrete operation sequence,
and the rejection branch applied at the empty bank. -/
theorem bank_balances_never_negative_witness :
    (0 ≤ balance (runOps bankInit
        [.dep "A" 10, .wd "A" 10, .tr "A" "B" 1]) "A")
    ∧ withdraw bankInit "alice" 5 = (some "insufficient funds", bankInit) :=
  ⟨bank_balances_never_negative.1 [.dep "A" 10, .wd "A" 10, .tr "A" "B" 1] "A",
   bank_balances_never_negative.2 bankInit "alice" 5 (by decide) (by decide)⟩

/-- Concrete users table for the won_claim witness. -/
def c10User : User :=
  { open_claims := [.pyInt 7, .pyStr "9"], open_disputes := [.pyInt 3],
    total_disputes := 4, won_disputes := 2, total_claims := 5,
    correct_claims := 3 }

/-- Concrete users table for the won_claim witness. -/
def c10Users : Users := setUser (fun _ => none) "umar" c10User

/-- Claim C10: when the user exists and the given claim id key is present
in open_claims, won_claim increments exactly total_claims and
correct_claims by one, removes the key from open_claims, leaves
open_disputes, total_disputes and won_disputes unchanged, and touches no
other user; when the lookup yields no user it returns the None result and
leaves the table unchanged. -/
theorem won_claim_increments_and_frames :
    (∀ (us : Users) (uid : String) (cid : PyKey) (u : User),
      us uid = some u → cid ∈ u.open_claims →
      ∃ u2, won_claim us (some uid) cid = (.updated u2, setUser us uid u2)
        ∧ u2.total_claims = u.total_claims + 1
        ∧ u2.correct_claims = u.correct_claims + 1
        ∧ u2.open_claims = u.open_claims.erase cid
        ∧ u2.open_disputes = u.open_disputes
        ∧ u2.total_disputes = u.total_disputes
        ∧ u2.won_disputes = u.won_disputes
        ∧ ∀ v, v ≠ uid → setUser us uid u2 v = us v)
    ∧ (∀ (us : Users) (uid : Option String) (cid : PyKey),
      uid.bind us = none → won_claim us uid cid = (.noUser, us)) := by
  constructor
  · intro us uid cid u h1 h2
    refine ⟨{ u with
        total_claims := u.total_claims + 1
        correct_claims := u.correct_claims + 1
        open_claims := u.open_claims.erase cid }, ?_, rfl, rfl, rfl,
        rfl, rfl, rfl, ?_⟩
    · simp [won_claim, h1, h2]
    · intro v hv
      simp [setUser, hv]
  · intro us uid cid h
    cases uid with
    | none => rfl
    | some s =>
      have hs : us s = none := by simpa using h
      simp [won_claim, hs]

/-- Claim C10, witness: both branches applied at a concrete table. The
present user with the int key 7 in open_claims gets exactly the two
increments and the key removal; a lookup of an absent user returns the None
result with the table unchanged. -/
theorem won_claim_increments_and_frames_witness :
    (∃ u2, won_claim c10Users (some "umar") (.pyInt 7) =
        (.updated u2, setUser c10Users "umar" u2)
      ∧ u2.total_claims = 6 ∧ u2.correct_claims = 4
      ∧ u2.open_claims = [.pyStr "9"] ∧ u2.open_disputes = [.pyInt 3]
      ∧ u2.total_disputes = 4 ∧ u2.won_disputes = 2)
    ∧ won_claim c10Users (some "zoe") (.pyInt 7) = (.noUser, c10Users) := by
  constructor
  · obtain ⟨u2, e1, e2, e3, e4, e5, e6, e7, _⟩ :=
      won_claim_increments_and_frames.1 c10Users "umar" (.pyInt 7) c10User
        (by decide) (by decide)
    refine ⟨u2, e1, ?_, ?_, ?_, ?_, ?_, ?_⟩
    · rw [e2]; decide
    · rw [e3]; decide
    · rw [e4]; decide
    · rw [e5]; decide
    · rw [e6]; decide
    · rw [e7]; decide
  · exact won_claim_increments_and_frames.2 c10Users (some "zoe") (.pyInt 7)
      (by decide)
